import Mathlib

/-!
Verification development for the AI_student_predictor repository
(`src/app.py`).  The Python source is shallowly embedded: numeric
values that the application handles as floats are modelled as
rationals (`ℚ`), database tables as lists of row structures, and each
route's write path as a pure function from the pre-state and the
request data to the post-state and the rendered response.  External
collaborators (password hashing, the signed reset token) are
parameters of the embedding: the hash is an arbitrary function
`String → String`, and the outcome of deserialising a reset token is
an explicit input to the route model.
-/

namespace StudentPredictor

/-! ## Risk scoring (`calculate_risk_level`, app.py lines 139-153) -/

/-- Embedding of `calculate_risk_level(attendance, avg_topic_score,
participation)`: the weighted overall score and the label/severity
step function, exactly as in the source. -/
def calculate_risk_level (attendance avg_topic_score participation : ℚ) :
    String × ℚ × String :=
  let overall_score := attendance * 0.30 + avg_topic_score * 0.50 + participation * 0.20
  if overall_score ≥ 85 then ("Performing Well", overall_score, "success")
  else if overall_score ≥ 70 then ("Low Risk", overall_score, "info")
  else if overall_score ≥ 50 then ("Medium Risk", overall_score, "warning")
  else ("High Risk", overall_score, "danger")

/-! ## Recommendation generator (`generate_smart_recommendations`,
app.py lines 155-228)

A topic-performance row, as the generator consumes it: the generator
reads only `tp.subject.name` and `tp.score` from each row. -/

structure TopicPerf where
  subjectName : String
  score : ℚ
deriving DecidableEq, Repr

/-- One generated recommendation record: the dict
`{subject, priority, text}` built by the generator. -/
structure RecOut where
  subject : String
  priority : String
  text : String
deriving DecidableEq, Repr

/-- Substring test on character lists, modelling Python's
`needle in haystack` for strings. -/
def charsContain (needle : List Char) : List Char → Bool
  | [] => needle.isEmpty
  | c :: rest => needle.isPrefixOf (c :: rest) || charsContain needle rest

/-- Python's `needle in haystack` on strings. -/
def strContains (haystack needle : String) : Bool :=
  charsContain needle.data haystack.data

/-- Text of the urgent (score < 50) recommendation. -/
def urgent_text (tp : TopicPerf) : String :=
  "🚨 URGENT: You\x27re struggling with " ++ tp.subjectName ++ " (Score: " ++
    toString tp.score ++ "%). Schedule extra tutoring sessions immediately. " ++
    "Focus on foundational concepts before moving to advanced topics."

/-- Text of the Python/Programming material recommendation. -/
def python_material_text (tp : TopicPerf) : String :=
  "📚 For " ++ tp.subjectName ++ ": Review Python basics on w3schools.com, " ++
    "complete exercises on HackerRank (Easy level), watch CS Dojo tutorials on YouTube."

/-- Text of the Database material recommendation. -/
def database_material_text (tp : TopicPerf) : String :=
  "📚 For " ++ tp.subjectName ++ ": Practice SQL queries on SQLZoo, " ++
    "review ER diagram examples, complete Khan Academy database course."

/-- Text of the Web material recommendation. -/
def web_material_text (tp : TopicPerf) : String :=
  "📚 For " ++ tp.subjectName ++ ": Build 3 simple HTML pages, " ++
    "practice CSS layouts on freeCodeCamp, complete JavaScript basics on Codecademy."

/-- Text of the moderate (50 ≤ score < 70) recommendation. -/
def improvement_text (tp : TopicPerf) : String :=
  "⚠️ " ++ tp.subjectName ++ " needs improvement (Score: " ++ toString tp.score ++
    "%). Join study groups, complete all practice exercises, and ask questions during lectures."

/-- Text of the low-attendance recommendation. -/
def attendance_text (attendance : ℚ) : String :=
  "🚨 Attendance is critically low (" ++ toString attendance ++
    "%). Missing classes means missing crucial explanations and examples. Aim for 85%+ attendance."

/-- Text of the low-participation recommendation. -/
def participation_text (participation : ℚ) : String :=
  "💬 Low class participation (" ++ toString participation ++
    "%). Ask at least 1 question per lecture, join discussions, and participate in group activities."

/-- Text of the strongest-subject recommendation. -/
def strength_text (tp : TopicPerf) : String :=
  "🌟 Excellent work in " ++ tp.subjectName ++ " (" ++ toString tp.score ++
    "%)! Consider tutoring other students or working on advanced projects in this area."

/-- The body of the generator's per-topic loop (app.py lines 162-200):
the records appended for one topic-performance row. -/
def topic_recs (tp : TopicPerf) : List RecOut :=
  if tp.score < 50 then
    ⟨tp.subjectName, "high", urgent_text tp⟩ ::
      (if strContains tp.subjectName "Python" || strContains tp.subjectName "Programming" then
        [⟨tp.subjectName, "high", python_material_text tp⟩]
      else if strContains tp.subjectName "Database" then
        [⟨tp.subjectName, "high", database_material_text tp⟩]
      else if strContains tp.subjectName "Web" then
        [⟨tp.subjectName, "high", web_material_text tp⟩]
      else [])
  else if tp.score < 70 then
    [⟨tp.subjectName, "medium", improvement_text tp⟩]
  else []

/-- Python's `max(xs, key=lambda x: x.score)` over a nonempty list,
given as head and tail: the running maximum is replaced only on a
strictly greater score, so the first maximum wins. -/
def maxByScore (best : TopicPerf) : List TopicPerf → TopicPerf
  | [] => best
  | tp :: rest => if tp.score > best.score then maxByScore tp rest else maxByScore best rest

/-- The attendance section of the generator (app.py lines 202-208). -/
def attendance_recs (attendance : ℚ) : List RecOut :=
  if attendance < 75 then [⟨"General", "high", attendance_text attendance⟩] else []

/-- The participation section of the generator (app.py lines 210-216). -/
def participation_recs (participation : ℚ) : List RecOut :=
  if participation < 50 then [⟨"General", "medium", participation_text participation⟩] else []

/-- The strongest-subject section of the generator (app.py lines
218-226): filter the topics scoring at least 80 and, when any exist,
name the max-by-score one. -/
def strength_recs (tps : List TopicPerf) : List RecOut :=
  match tps.filter (fun tp => tp.score ≥ 80) with
  | [] => []
  | b :: rest =>
    let best := maxByScore b rest
    [⟨best.subjectName, "low", strength_text best⟩]

/-- Embedding of `generate_smart_recommendations(student,
topic_performances, attendance, participation)`.  The `student`
argument is threaded through unused, as in the source.  The source
builds one list by successive appends: the per-topic loop, the
attendance check, the participation check, the strongest-subject
pass. -/
def generate_smart_recommendations (student : String) (tps : List TopicPerf)
    (attendance participation : ℚ) : List RecOut :=
  let _ := student
  tps.flatMap topic_recs
    ++ attendance_recs attendance
    ++ participation_recs participation
    ++ strength_recs tps

/-! ## The add-progress write (`add_progress`, app.py lines 456-494)

Only the pure computation of the stored `overall_score` and
`risk_level` from the submitted form values is modelled here: the
submitted topic scores arrive as the list `topic_scores` that the
route accumulates while iterating the subjects. -/

/-- The two derived columns stored on the new `ProgressEntry`. -/
structure ProgressDerived where
  overall_score : ℚ
  risk_level : String
deriving DecidableEq, Repr

/-- The derived columns as `add_progress` computes them (app.py lines
489-494): the topic average is `sum/len` when any score was
submitted and `0` otherwise, then `calculate_risk_level` supplies the
stored score and label. -/
def add_progress_derived (attendance participation : ℚ) (topic_scores : List ℚ) :
    ProgressDerived :=
  let avg_topic_score :=
    if topic_scores.isEmpty then 0 else topic_scores.sum / (topic_scores.length : ℚ)
  let r := calculate_risk_level attendance avg_topic_score participation
  { overall_score := r.2.1, risk_level := r.1 }

/-! ## Database state and row models (app.py lines 72-135)

Each table is a list of rows; primary keys are modelled as `Nat`
fields.  Only the columns that the verified routes read or write are
given interpreted values; nullable columns are `Option`s. -/

structure UserRow where
  id : Nat
  username : String
  email : String
  password_hash : String
  role : String
  studentNumber : Option String
  name : Option String
  course : Option String
  year_of_study : Option String
deriving DecidableEq, Repr

structure SubjectRow where
  id : Nat
  name : String
  code : String
  description : String
deriving DecidableEq, Repr

structure ProgressRow where
  id : Nat
  student_user_id : Nat
  week_number : Int
  semester : String
  attendance_percentage : ℚ
  participation_score : ℚ
  overall_score : Option ℚ
  risk_level : Option String
deriving DecidableEq, Repr

structure TopicRow where
  id : Nat
  progress_entry_id : Nat
  subject_id : Nat
  score : ℚ
deriving DecidableEq, Repr

structure RecRow where
  id : Nat
  progress_entry_id : Nat
  subject_id : Option Nat
  recommendation_text : String
  priority : String
deriving DecidableEq, Repr

/-- The whole persisted state: the five tables of the schema. -/
structure DBState where
  users : List UserRow
  subjects : List SubjectRow
  progress : List ProgressRow
  topicPerfs : List TopicRow
  recs : List RecRow
deriving DecidableEq, Repr

/-! ## Registration (`register`, app.py lines 255-292) -/

/-- The register form fields. -/
structure RegForm where
  username : String
  email : String
  password : String
  role : String
  studentNumber : Option String
  name : Option String
  course : Option String
  year_of_study : Option String
deriving DecidableEq, Repr

/-- The response the register route produces on a POST: either the
form re-rendered with a flash, or a redirect to the login page. -/
inductive RegResponse
  | renderRegister (flashMsg flashCat : String)
  | redirectLogin (flashMsg flashCat : String)
deriving DecidableEq, Repr

/-- Embedding of the POST branch of `register`.  `hash` is the
external password-hashing primitive; `nextId` the primary key the
storage engine assigns to a newly inserted row.  The duplicate
checks are `User.query.filter_by(...).first()` on username, then on
email; the new row's student profile fields are set only for the
student role. -/
def register (hash : String → String) (nextId : Nat) (s : DBState) (f : RegForm) :
    DBState × RegResponse :=
  if s.users.any (fun u => u.username == f.username) then
    (s, .renderRegister "Username already exists" "danger")
  else if s.users.any (fun u => u.email == f.email) then
    (s, .renderRegister "Email already registered" "danger")
  else
    let user : UserRow :=
      { id := nextId
        username := f.username
        email := f.email
        password_hash := hash f.password
        role := f.role
        studentNumber := if f.role == "student" then f.studentNumber else none
        name := if f.role == "student" then f.name else none
        course := if f.role == "student" then f.course else none
        year_of_study := if f.role == "student" then f.year_of_study else none }
    ({ s with users := s.users ++ [user] },
      .redirectLogin "Registration successful! Please login." "success")

/-! ## Password reset (`reset_password`, app.py lines 362-400) -/

/-- The outcome of `serializer.loads(token, max_age=3600)`: the
external token layer either raises `SignatureExpired` (token older
than one hour), raises `BadSignature`, or yields the embedded
email. -/
inductive TokenResult
  | expired
  | badSignature
  | valid (email : String)
deriving DecidableEq, Repr

/-- The response of the reset-password route on a POST. -/
inductive ResetResponse
  | redirectForgot (flashMsg flashCat : String)
  | renderForm (flashMsg flashCat : String)
  | redirectLogin (flashMsg flashCat : String)
deriving DecidableEq, Repr

/-- `user.set_password(password)` (app.py lines 87-88). -/
def set_password (hash : String → String) (password : String) (u : UserRow) : UserRow :=
  { u with password_hash := hash password }

/-- `User.query.filter_by(email=email).first()` followed by the
password update: rewrites the first row whose email matches, or
yields `none` when no row matches. -/
def update_first_by_email (hash : String → String) (email password : String) :
    List UserRow → Option (List UserRow)
  | [] => none
  | u :: rest =>
    if u.email == email then some (set_password hash password u :: rest)
    else (update_first_by_email hash email password rest).map (fun l => u :: l)

/-- Embedding of the POST branch of `reset_password`: token check,
confirmation check, length check, then the password-hash update of
the account carrying the token's email. -/
def reset_password (hash : String → String) (s : DBState) (tok : TokenResult)
    (password confirm_password : String) : DBState × ResetResponse :=
  match tok with
  | .expired =>
    (s, .redirectForgot "The password reset link has expired. Please request a new one." "danger")
  | .badSignature => (s, .redirectForgot "Invalid password reset link." "danger")
  | .valid email =>
    if password != confirm_password then
      (s, .renderForm "Passwords do not match!" "danger")
    else if password.length < 6 then
      (s, .renderForm "Password must be at least 6 characters long!" "danger")
    else
      match update_first_by_email hash email password s.users with
      | some users2 =>
        ({ s with users := users2 },
          .redirectLogin "Your password has been reset successfully! You can now login." "success")
      | none => (s, .redirectForgot "User not found." "danger")

/-! ## Subject deletion (`delete_subject`, app.py lines 582-593) -/

/-- Embedding of `delete_subject`: `get_or_404` then an unconditional
row delete and commit.  No other table is read or written.  The
returned flag is `true` when the subject existed (the delete-and-flash
path) and `false` for the 404 path, which leaves the state unchanged.
Primary keys are unique, so deleting the fetched row is removing the
rows carrying that id. -/
def delete_subject (s : DBState) (id : Nat) : DBState × Bool :=
  if s.subjects.any (fun subj => subj.id == id) then
    ({ s with subjects := s.subjects.filter (fun subj => subj.id != id) }, true)
  else (s, false)

/-! ## Student deletion (`delete_student`, app.py lines 597-628) -/

/-- Embedding of `delete_student`: fetch the student
(`filter_by(id=student_id, role='student').first_or_404()`), then for
each of the student's progress entries delete its recommendations and
topic performances, delete the entry, delete the user row, commit.
The returned flag distinguishes the delete path from the 404 path.
Primary keys are unique, so deleting the fetched user row is removing
the rows carrying that id. -/
def delete_student (s : DBState) (student_id : Nat) : DBState × Bool :=
  if s.users.any (fun u => u.id == student_id && u.role == "student") then
    let entryIds := (s.progress.filter (fun e => e.student_user_id == student_id)).map
      (fun e => e.id)
    ({ users := s.users.filter (fun u => u.id != student_id)
       subjects := s.subjects
       progress := s.progress.filter (fun e => e.student_user_id != student_id)
       topicPerfs := s.topicPerfs.filter (fun t => !(entryIds.contains t.progress_entry_id))
       recs := s.recs.filter (fun r => !(entryIds.contains r.progress_entry_id)) }, true)
  else (s, false)

/-! ## Theorems -/

/-- Helper: the label returned by `calculate_risk_level` is the step
function of the score it returns. -/
theorem calculate_risk_level_fst_step (a t p : ℚ) :
    (calculate_risk_level a t p).1 =
      (if (calculate_risk_level a t p).2.1 ≥ 85 then "Performing Well"
       else if (calculate_risk_level a t p).2.1 ≥ 70 then "Low Risk"
       else if (calculate_risk_level a t p).2.1 ≥ 50 then "Medium Risk"
       else "High Risk") := by
  simp only [calculate_risk_level]
  split_ifs <;> simp_all

/-- C1: `calculate_risk_level` returns the weighted score
`0.30*attendance + 0.50*avg_topic_score + 0.20*participation` and the
label/severity pair given by exact boundaries at 85, 70, 50; in
particular a score of 85 yields "Performing Well" and 84.999 yields
the lower label "Low Risk". -/
theorem calculate_risk_level_boundaries :
    (∀ a t p : ℚ,
      calculate_risk_level a t p =
        (if 0.30 * a + 0.50 * t + 0.20 * p ≥ 85 then
          ("Performing Well", 0.30 * a + 0.50 * t + 0.20 * p, "success")
        else if 0.30 * a + 0.50 * t + 0.20 * p ≥ 70 then
          ("Low Risk", 0.30 * a + 0.50 * t + 0.20 * p, "info")
        else if 0.30 * a + 0.50 * t + 0.20 * p ≥ 50 then
          ("Medium Risk", 0.30 * a + 0.50 * t + 0.20 * p, "warning")
        else ("High Risk", 0.30 * a + 0.50 * t + 0.20 * p, "danger"))) ∧
    calculate_risk_level 85 85 85 = ("Performing Well", 85, "success") ∧
    calculate_risk_level 84.999 84.999 84.999 = ("Low Risk", 84.999, "info") := by
  refine ⟨fun a t p => ?_, by norm_num [calculate_risk_level], by norm_num [calculate_risk_level]⟩
  have h : a * 0.30 + t * 0.50 + p * 0.20 = 0.30 * a + 0.50 * t + 0.20 * p := by ring
  simp only [calculate_risk_level, h]

/-- C2: the derived columns stored by the add-progress write: the
overall score is `0.30*attendance + 0.50*avg + 0.20*participation`
with `avg` the arithmetic mean of the submitted topic scores (0 when
none were submitted); the stored risk level is the step function of
that score; and the concrete example attendance 80, scores [60, 90],
participation 40 stores 69.5 / "Medium Risk". -/
theorem add_progress_derived_spec (a p : ℚ) (ts : List ℚ) :
    (add_progress_derived a p ts).overall_score =
        0.30 * a + 0.50 * (if ts.isEmpty then 0 else ts.sum / (ts.length : ℚ)) + 0.20 * p ∧
    (add_progress_derived a p ts).risk_level =
      (if (add_progress_derived a p ts).overall_score ≥ 85 then "Performing Well"
       else if (add_progress_derived a p ts).overall_score ≥ 70 then "Low Risk"
       else if (add_progress_derived a p ts).overall_score ≥ 50 then "Medium Risk"
       else "High Risk") ∧
    add_progress_derived 80 40 [60, 90] = ⟨69.5, "Medium Risk"⟩ := by
  refine ⟨?_, ?_, by norm_num [add_progress_derived, calculate_risk_level]⟩
  · show (calculate_risk_level a _ p).2.1 = _
    simp only [calculate_risk_level]
    split_ifs <;> · dsimp only; ring
  · exact calculate_risk_level_fst_step a _ p

/-- C3: per-topic messages of the recommendation generator, in input
order: below 50 an URGENT high-priority message, plus one more
high-priority subject-specific message exactly when the subject name
contains one of the fixed keywords (Python/Programming, Database,
Web); between 50 and 70 one medium-priority improvement message; at
70 or above nothing. -/
theorem generate_smart_recommendations_topics (student : String)
    (tps : List TopicPerf) (a p : ℚ) :
    (∃ tail, generate_smart_recommendations student tps a p =
        tps.flatMap topic_recs ++ tail) ∧
    (∀ tp : TopicPerf,
      (tp.score < 50 →
        ∃ rest, topic_recs tp = ⟨tp.subjectName, "high", urgent_text tp⟩ :: rest ∧
          ((strContains tp.subjectName "Python" || strContains tp.subjectName "Programming" ||
              strContains tp.subjectName "Database" || strContains tp.subjectName "Web") = true →
            ∃ r, rest = [r] ∧ r.subject = tp.subjectName ∧ r.priority = "high") ∧
          ((strContains tp.subjectName "Python" || strContains tp.subjectName "Programming" ||
              strContains tp.subjectName "Database" || strContains tp.subjectName "Web") = false →
            rest = [])) ∧
      (50 ≤ tp.score → tp.score < 70 →
        topic_recs tp = [⟨tp.subjectName, "medium", improvement_text tp⟩]) ∧
      (70 ≤ tp.score → topic_recs tp = [])) := by
  refine ⟨⟨attendance_recs a ++ (participation_recs p ++ strength_recs tps),
    by simp [generate_smart_recommendations, List.append_assoc]⟩, fun tp => ?_⟩
  refine ⟨fun hlt => ?_, fun h50 h70 => ?_, fun h70 => ?_⟩
  · rw [topic_recs, if_pos hlt]
    refine ⟨_, rfl, fun hmatch => ?_, fun hnomatch => ?_⟩
    · simp only [Bool.or_eq_true] at hmatch
      rcases hmatch with ((hP | hPr) | hD) | hW
      · exact ⟨_, by rw [if_pos (by rw [hP]; rfl)], rfl, rfl⟩
      · exact ⟨_, by rw [if_pos (by rw [hPr, Bool.or_true])], rfl, rfl⟩
      · by_cases hpy : (strContains tp.subjectName "Python" ||
            strContains tp.subjectName "Programming") = true
        · exact ⟨_, by rw [if_pos hpy], rfl, rfl⟩
        · exact ⟨_, by rw [if_neg hpy, if_pos hD], rfl, rfl⟩
      · by_cases hpy : (strContains tp.subjectName "Python" ||
            strContains tp.subjectName "Programming") = true
        · exact ⟨_, by rw [if_pos hpy], rfl, rfl⟩
        · by_cases hdb : strContains tp.subjectName "Database" = true
          · exact ⟨_, by rw [if_neg hpy, if_pos hdb], rfl, rfl⟩
          · exact ⟨_, by rw [if_neg hpy, if_neg hdb, if_pos hW], rfl, rfl⟩
    · simp only [Bool.or_eq_false_iff] at hnomatch
      rw [if_neg (by simp [hnomatch.1.1.1, hnomatch.1.1.2]),
        if_neg (by simp [hnomatch.1.2]), if_neg (by simp [hnomatch.2])]
  · rw [topic_recs, if_neg (by simpa using h50), if_pos h70]
  · rw [topic_recs, if_neg (not_lt.mpr (le_trans (by norm_num) h70)),
      if_neg (not_lt.mpr h70)]

/-- Helper: every element of a list decomposed around a first maximum
scores at most the maximum. -/
theorem decomp_score_le (l l1 l2 : List TopicPerf) (m : TopicPerf)
    (heq : l = l1 ++ m :: l2) (h1 : ∀ x ∈ l1, x.score < m.score)
    (h2 : ∀ x ∈ l2, x.score ≤ m.score) : ∀ x ∈ l, x.score ≤ m.score := by
  subst heq
  intro x hx
  rcases List.mem_append.1 hx with h | h
  · exact le_of_lt (h1 x h)
  · rcases List.mem_cons.1 h with rfl | h
    · exact le_refl _
    · exact h2 x h

/-- Helper: `maxByScore` returns the first maximum of the list: the
list splits around the returned element with everything before it
scoring strictly less and everything after it scoring at most as
much. -/
theorem maxByScore_first_max (rest : List TopicPerf) :
    ∀ b : TopicPerf, ∃ l1 l2,
      b :: rest = l1 ++ maxByScore b rest :: l2 ∧
      (∀ x ∈ l1, x.score < (maxByScore b rest).score) ∧
      (∀ x ∈ l2, x.score ≤ (maxByScore b rest).score) := by
  induction rest with
  | nil => exact fun b => ⟨[], [], rfl, by simp, by simp⟩
  | cons tp rest ih =>
    intro b
    by_cases h : tp.score > b.score
    · obtain ⟨l1, l2, heq, h1, h2⟩ := ih tp
      simp only [maxByScore, if_pos h]
      refine ⟨b :: l1, l2, by rw [List.cons_append, ← heq], ?_, h2⟩
      intro x hx
      rcases List.mem_cons.1 hx with rfl | hx
      · exact lt_of_lt_of_le h
          (decomp_score_le _ l1 l2 _ heq h1 h2 tp (List.mem_cons_self _ _))
      · exact h1 x hx
    · obtain ⟨l1, l2, heq, h1, h2⟩ := ih b
      simp only [maxByScore, if_neg h]
      push_neg at h
      cases l1 with
      | nil =>
        simp only [List.nil_append] at heq
        injection heq with hb hrest
        refine ⟨[], tp :: rest, by rw [List.nil_append, ← hb], by simp, ?_⟩
        intro x hx
        rcases List.mem_cons.1 hx with rfl | hx
        · exact le_trans h (le_of_eq (congrArg TopicPerf.score hb))
        · exact h2 x (hrest ▸ hx)
      | cons c l1t =>
        simp only [List.cons_append] at heq
        injection heq with hb hrest
        refine ⟨b :: tp :: l1t, l2, ?_, ?_, h2⟩
        · rw [List.cons_append, List.cons_append, ← hrest]
        · intro x hx
          have hc : c.score < (maxByScore b rest).score := h1 c (List.mem_cons_self _ _)
          rcases List.mem_cons.1 hx with rfl | hx
          · exact hb ▸ hc
          · rcases List.mem_cons.1 hx with rfl | hx
            · exact lt_of_le_of_lt (le_trans h (le_of_eq (congrArg TopicPerf.score hb))) hc
            · exact h1 x (List.mem_cons_of_mem _ hx)

/-- C4: after the per-topic messages the generator appends, in order:
one high-priority "General" record exactly when attendance < 75, one
medium-priority "General" record exactly when participation < 50,
and, exactly when some topic scores at least 80, one low-priority
record naming the first maximum-scoring such topic; nothing else. -/
theorem generate_smart_recommendations_tail (student : String)
    (tps : List TopicPerf) (a p : ℚ) :
    generate_smart_recommendations student tps a p =
      tps.flatMap topic_recs ++ attendance_recs a ++ participation_recs p
        ++ strength_recs tps ∧
    (a < 75 → attendance_recs a = [⟨"General", "high", attendance_text a⟩]) ∧
    (75 ≤ a → attendance_recs a = []) ∧
    (p < 50 → participation_recs p = [⟨"General", "medium", participation_text p⟩]) ∧
    (50 ≤ p → participation_recs p = []) ∧
    (tps.filter (fun tp => tp.score ≥ 80) = [] → strength_recs tps = []) ∧
    (∀ b rest, tps.filter (fun tp => tp.score ≥ 80) = b :: rest →
      ∃ m l1 l2, b :: rest = l1 ++ m :: l2 ∧
        (∀ x ∈ l1, x.score < m.score) ∧
        (∀ x ∈ l2, x.score ≤ m.score) ∧
        strength_recs tps = [⟨m.subjectName, "low", strength_text m⟩]) := by
  refine ⟨rfl, fun h => by rw [attendance_recs, if_pos h],
    fun h => by rw [attendance_recs, if_neg (not_lt.mpr h)],
    fun h => by rw [participation_recs, if_pos h],
    fun h => by rw [participation_recs, if_neg (not_lt.mpr h)],
    fun h => by rw [strength_recs, h],
    fun b rest h => ?_⟩
  obtain ⟨l1, l2, heq, h1, h2⟩ := maxByScore_first_max rest b
  exact ⟨maxByScore b rest, l1, l2, heq, h1, h2, by rw [strength_recs, h]⟩

/-- C9: the recommendation generator is deterministic: equal inputs
give equal output lists. -/
theorem generate_smart_recommendations_deterministic
    (s1 s2 : String) (tps1 tps2 : List TopicPerf) (a1 a2 p1 p2 : ℚ)
    (hs : s1 = s2) (ht : tps1 = tps2) (ha : a1 = a2) (hp : p1 = p2) :
    generate_smart_recommendations s1 tps1 a1 p1 =
      generate_smart_recommendations s2 tps2 a2 p2 := by
  rw [hs, ht, ha, hp]

/-- Witness for C9 at a concrete input. -/
theorem generate_smart_recommendations_deterministic_witness :
    generate_smart_recommendations "s" [⟨"Python Programming", 40⟩] 80 60 =
      generate_smart_recommendations "s" [⟨"Python Programming", 40⟩] 80 60 :=
  generate_smart_recommendations_deterministic "s" "s"
    [⟨"Python Programming", 40⟩] [⟨"Python Programming", 40⟩] 80 80 60 60
    rfl rfl rfl rfl

/-- Witness for C3 at a concrete topic scoring below 50. -/
theorem generate_smart_recommendations_topics_witness :
    ∃ rest, topic_recs ⟨"Python Programming", 40⟩ =
        ⟨"Python Programming", "high", urgent_text ⟨"Python Programming", 40⟩⟩ :: rest ∧
      ((strContains "Python Programming" "Python" || strContains "Python Programming" "Programming" ||
          strContains "Python Programming" "Database" || strContains "Python Programming" "Web") = true →
        ∃ r, rest = [r] ∧ r.subject = "Python Programming" ∧ r.priority = "high") ∧
      ((strContains "Python Programming" "Python" || strContains "Python Programming" "Programming" ||
          strContains "Python Programming" "Database" || strContains "Python Programming" "Web") = false →
        rest = []) :=
  ((generate_smart_recommendations_topics "s" [⟨"Python Programming", 40⟩] 80 60).2
    ⟨"Python Programming", 40⟩).1 (by norm_num)

/-- Witness for C4 at a concrete low attendance value. -/
theorem generate_smart_recommendations_tail_witness :
    attendance_recs 70 = [⟨"General", "high", attendance_text 70⟩] :=
  (generate_smart_recommendations_tail "s" [] 70 60).2.1 (by norm_num)

/-- C8: subject deletion by an admin is unconditional: with the
subject present it always takes the delete path, removes exactly the
rows of that subject id from the subjects table, and leaves all
other tables untouched — in particular every `TopicPerformance` and
`Recommendation` row referencing the subject survives and afterwards
points at no existing subject. -/
theorem delete_subject_unconditional (s : DBState) (sid : Nat)
    (h : ∃ subj ∈ s.subjects, subj.id = sid) :
    (delete_subject s sid).2 = true ∧
    (delete_subject s sid).1.users = s.users ∧
    (delete_subject s sid).1.progress = s.progress ∧
    (delete_subject s sid).1.topicPerfs = s.topicPerfs ∧
    (delete_subject s sid).1.recs = s.recs ∧
    (∀ subj ∈ (delete_subject s sid).1.subjects, subj.id ≠ sid) ∧
    (∀ subj ∈ s.subjects, subj.id ≠ sid → subj ∈ (delete_subject s sid).1.subjects) ∧
    (∀ t ∈ s.topicPerfs, t.subject_id = sid →
      t ∈ (delete_subject s sid).1.topicPerfs ∧
      ∀ subj ∈ (delete_subject s sid).1.subjects, subj.id ≠ t.subject_id) := by
  have hc : (s.subjects.any (fun subj => subj.id == sid)) = true := by
    obtain ⟨subj, hmem, hid⟩ := h
    exact List.any_eq_true.2 ⟨subj, hmem, by simp [hid]⟩
  rw [delete_subject, if_pos hc]
  refine ⟨rfl, rfl, rfl, rfl, rfl, ?_, ?_, ?_⟩
  · intro subj hmem
    have := (List.mem_filter.1 hmem).2
    simpa using this
  · intro subj hmem hne
    exact List.mem_filter.2 ⟨hmem, by simpa using hne⟩
  · intro t hmem hid
    refine ⟨hmem, ?_⟩
    intro subj hsub
    have := (List.mem_filter.1 hsub).2
    rw [hid]
    simpa using this

/-- Witness for C8 on a concrete one-subject state with a dangling
performance row. -/
theorem delete_subject_unconditional_witness :
    (delete_subject ⟨[], [⟨1, "Python Programming", "CS101", "x"⟩], [],
        [⟨1, 1, 1, 40⟩], []⟩ 1).2 = true ∧
    (delete_subject ⟨[], [⟨1, "Python Programming", "CS101", "x"⟩], [],
        [⟨1, 1, 1, 40⟩], []⟩ 1).1.users = [] ∧
    (delete_subject ⟨[], [⟨1, "Python Programming", "CS101", "x"⟩], [],
        [⟨1, 1, 1, 40⟩], []⟩ 1).1.progress = [] ∧
    (delete_subject ⟨[], [⟨1, "Python Programming", "CS101", "x"⟩], [],
        [⟨1, 1, 1, 40⟩], []⟩ 1).1.topicPerfs = [⟨1, 1, 1, 40⟩] ∧
    (delete_subject ⟨[], [⟨1, "Python Programming", "CS101", "x"⟩], [],
        [⟨1, 1, 1, 40⟩], []⟩ 1).1.recs = [] ∧
    (∀ subj ∈ (delete_subject ⟨[], [⟨1, "Python Programming", "CS101", "x"⟩], [],
        [⟨1, 1, 1, 40⟩], []⟩ 1).1.subjects, subj.id ≠ 1) ∧
    (∀ subj ∈ ([⟨1, "Python Programming", "CS101", "x"⟩] : List SubjectRow), subj.id ≠ 1 →
      subj ∈ (delete_subject ⟨[], [⟨1, "Python Programming", "CS101", "x"⟩], [],
        [⟨1, 1, 1, 40⟩], []⟩ 1).1.subjects) ∧
    (∀ t ∈ ([⟨1, 1, 1, 40⟩] : List TopicRow), t.subject_id = 1 →
      t ∈ (delete_subject ⟨[], [⟨1, "Python Programming", "CS101", "x"⟩], [],
        [⟨1, 1, 1, 40⟩], []⟩ 1).1.topicPerfs ∧
      ∀ subj ∈ (delete_subject ⟨[], [⟨1, "Python Programming", "CS101", "x"⟩], [],
        [⟨1, 1, 1, 40⟩], []⟩ 1).1.subjects, subj.id ≠ t.subject_id) :=
  delete_subject_unconditional _ 1
    ⟨⟨1, "Python Programming", "CS101", "x"⟩, by simp, rfl⟩

/-- C5: deleting a student removes the student's user row and every
progress entry, topic performance and recommendation attached to the
student's progress entries; every other user row, every subject row,
and every row attached to other students' entries survives
unchanged. -/
theorem delete_student_cascade (s : DBState) (sid : Nat)
    (h : ∃ u ∈ s.users, u.id = sid ∧ u.role = "student") :
    (delete_student s sid).2 = true ∧
    (delete_student s sid).1.subjects = s.subjects ∧
    (∀ u ∈ (delete_student s sid).1.users, u ∈ s.users ∧ u.id ≠ sid) ∧
    (∀ u ∈ s.users, u.id ≠ sid → u ∈ (delete_student s sid).1.users) ∧
    (∀ e ∈ (delete_student s sid).1.progress, e ∈ s.progress ∧ e.student_user_id ≠ sid) ∧
    (∀ e ∈ s.progress, e.student_user_id ≠ sid → e ∈ (delete_student s sid).1.progress) ∧
    (∀ t ∈ (delete_student s sid).1.topicPerfs, t ∈ s.topicPerfs ∧
      ∀ e ∈ s.progress, e.student_user_id = sid → t.progress_entry_id ≠ e.id) ∧
    (∀ t ∈ s.topicPerfs,
      (∀ e ∈ s.progress, e.student_user_id = sid → t.progress_entry_id ≠ e.id) →
      t ∈ (delete_student s sid).1.topicPerfs) ∧
    (∀ r ∈ (delete_student s sid).1.recs, r ∈ s.recs ∧
      ∀ e ∈ s.progress, e.student_user_id = sid → r.progress_entry_id ≠ e.id) ∧
    (∀ r ∈ s.recs,
      (∀ e ∈ s.progress, e.student_user_id = sid → r.progress_entry_id ≠ e.id) →
      r ∈ (delete_student s sid).1.recs) := by
  have hc : (s.users.any (fun u => u.id == sid && u.role == "student")) = true := by
    obtain ⟨u, hmem, hid, hrole⟩ := h
    exact List.any_eq_true.2 ⟨u, hmem, by simp [hid, hrole]⟩
  rw [delete_student, if_pos hc]
  have hnotin : ∀ x : Nat,
      (x ∉ (s.progress.filter (fun e => e.student_user_id == sid)).map (fun e => e.id)) ↔
      ∀ e ∈ s.progress, e.student_user_id = sid → x ≠ e.id := by
    intro x
    simp only [List.mem_map, List.mem_filter, not_exists, beq_iff_eq]
    constructor
    · intro hx e he hesid heq
      exact hx e ⟨⟨he, hesid⟩, heq.symm⟩
    · rintro hx e ⟨⟨he, hesid⟩, heq⟩
      exact hx e he hesid heq.symm
  refine ⟨rfl, rfl, ?_, ?_, ?_, ?_, ?_, ?_, ?_, ?_⟩
  · intro u hmem
    have h2 := List.mem_filter.1 hmem
    exact ⟨h2.1, by simpa using h2.2⟩
  · intro u hmem hne
    exact List.mem_filter.2 ⟨hmem, by simpa using hne⟩
  · intro e hmem
    have h2 := List.mem_filter.1 hmem
    exact ⟨h2.1, by simpa using h2.2⟩
  · intro e hmem hne
    exact List.mem_filter.2 ⟨hmem, by simpa using hne⟩
  · intro t hmem
    have h2 := List.mem_filter.1 hmem
    exact ⟨h2.1, (hnotin t.progress_entry_id).1 (by simpa using h2.2)⟩
  · intro t hmem ht
    exact List.mem_filter.2 ⟨hmem, by simpa using (hnotin t.progress_entry_id).2 ht⟩
  · intro r hmem
    have h2 := List.mem_filter.1 hmem
    exact ⟨h2.1, (hnotin r.progress_entry_id).1 (by simpa using h2.2)⟩
  · intro r hmem hr
    exact List.mem_filter.2 ⟨hmem, by simpa using (hnotin r.progress_entry_id).2 hr⟩

/-- Witness for C5 on a concrete two-student state. -/
theorem delete_student_cascade_witness :
    (delete_student ⟨[⟨1, "alice", "a@x", "h1", "student", none, none, none, none⟩,
        ⟨2, "bob", "b@x", "h2", "student", none, none, none, none⟩], [],
        [⟨1, 1, 1, "2025-1", 80, 40, none, none⟩, ⟨2, 2, 1, "2025-1", 90, 50, none, none⟩],
        [⟨1, 1, 1, 50⟩, ⟨2, 2, 1, 60⟩],
        [⟨1, 1, none, "t", "high"⟩, ⟨2, 2, none, "t", "low"⟩]⟩ 1).2 = true ∧
    (delete_student ⟨[⟨1, "alice", "a@x", "h1", "student", none, none, none, none⟩,
        ⟨2, "bob", "b@x", "h2", "student", none, none, none, none⟩], [],
        [⟨1, 1, 1, "2025-1", 80, 40, none, none⟩, ⟨2, 2, 1, "2025-1", 90, 50, none, none⟩],
        [⟨1, 1, 1, 50⟩, ⟨2, 2, 1, 60⟩],
        [⟨1, 1, none, "t", "high"⟩, ⟨2, 2, none, "t", "low"⟩]⟩ 1).1.subjects = [] :=
  ⟨(delete_student_cascade _ 1 ⟨⟨1, "alice", "a@x", "h1", "student", none, none, none, none⟩,
      by simp, rfl, rfl⟩).1,
   (delete_student_cascade _ 1 ⟨⟨1, "alice", "a@x", "h1", "student", none, none, none, none⟩,
      by simp, rfl, rfl⟩).2.1⟩

/-- C6: a registration whose username or email equals one already
stored is rejected: the state — in particular the existing account
row with its password hash — is unchanged, no row is added, and the
register form is re-rendered with a danger flash. -/
theorem register_duplicate_rejected (hash : String → String) (nid : Nat)
    (s : DBState) (f : RegForm)
    (h : (∃ u ∈ s.users, u.username = f.username) ∨ (∃ u ∈ s.users, u.email = f.email)) :
    (register hash nid s f).1 = s ∧
    ∃ m, (register hash nid s f).2 = .renderRegister m "danger" := by
  by_cases hu : (s.users.any (fun u => u.username == f.username)) = true
  · rw [register, if_pos hu]
    exact ⟨rfl, "Username already exists", rfl⟩
  · have he : (s.users.any (fun u => u.email == f.email)) = true := by
      rcases h with ⟨u, hmem, heq⟩ | ⟨u, hmem, heq⟩
      · exact absurd (List.any_eq_true.2 ⟨u, hmem, by simp [heq]⟩) hu
      · exact List.any_eq_true.2 ⟨u, hmem, by simp [heq]⟩
    rw [register, if_neg hu, if_pos he]
    exact ⟨rfl, "Email already registered", rfl⟩

/-- Witness for C6: re-registering the username "alice". -/
theorem register_duplicate_rejected_witness :
    (register (fun p => p) 2
        ⟨[⟨1, "alice", "a@x", "h1", "student", none, none, none, none⟩], [], [], [], []⟩
        ⟨"alice", "other@x", "pw", "student", none, none, none, none⟩).1 =
      ⟨[⟨1, "alice", "a@x", "h1", "student", none, none, none, none⟩], [], [], [], []⟩ ∧
    ∃ m, (register (fun p => p) 2
        ⟨[⟨1, "alice", "a@x", "h1", "student", none, none, none, none⟩], [], [], [], []⟩
        ⟨"alice", "other@x", "pw", "student", none, none, none, none⟩).2 =
      .renderRegister m "danger" :=
  register_duplicate_rejected (fun p => p) 2 _ _
    (Or.inl ⟨⟨1, "alice", "a@x", "h1", "student", none, none, none, none⟩, by simp, rfl⟩)

/-- C10: registration applies no password rule at all: whenever the
username and email are fresh, the account is created and stored with
the hash of whatever password was submitted — the empty string
included — and the response is the success redirect. -/
theorem register_no_password_rule (hash : String → String) (nid : Nat)
    (s : DBState) (f : RegForm)
    (h1 : ∀ u ∈ s.users, u.username ≠ f.username)
    (h2 : ∀ u ∈ s.users, u.email ≠ f.email) :
    ∃ newRow : UserRow, (register hash nid s f).1.users = s.users ++ [newRow] ∧
      newRow.username = f.username ∧ newRow.email = f.email ∧
      newRow.password_hash = hash f.password ∧
      (register hash nid s f).2 =
        .redirectLogin "Registration successful! Please login." "success" ∧
      reset_password hash s (.valid f.email) "12345" "12345" =
        (s, .renderForm "Password must be at least 6 characters long!" "danger") := by
  have hu : (s.users.any (fun u => u.username == f.username)) = false := by
    simp only [List.any_eq_false, beq_iff_eq]
    exact h1
  have he : (s.users.any (fun u => u.email == f.email)) = false := by
    simp only [List.any_eq_false, beq_iff_eq]
    exact h2
  rw [register, if_neg (by simp [hu]), if_neg (by simp [he])]
  refine ⟨_, rfl, rfl, rfl, rfl, rfl, ?_⟩
  simp only [reset_password]
  rw [if_neg (by simp), if_pos (by decide)]

/-- Witness for C10: registering with the empty password succeeds. -/
theorem register_no_password_rule_witness :
    ∃ newRow : UserRow, (register (fun p => p) 2
        ⟨[⟨1, "alice", "a@x", "h1", "student", none, none, none, none⟩], [], [], [], []⟩
        ⟨"bob", "b@x", "", "lecturer", none, none, none, none⟩).1.users =
      [⟨1, "alice", "a@x", "h1", "student", none, none, none, none⟩] ++ [newRow] ∧
      newRow.username = "bob" ∧ newRow.email = "b@x" ∧
      newRow.password_hash = (fun p => p) "" ∧
      (register (fun p => p) 2
        ⟨[⟨1, "alice", "a@x", "h1", "student", none, none, none, none⟩], [], [], [], []⟩
        ⟨"bob", "b@x", "", "lecturer", none, none, none, none⟩).2 =
      .redirectLogin "Registration successful! Please login." "success" ∧
      reset_password (fun p => p)
        ⟨[⟨1, "alice", "a@x", "h1", "student", none, none, none, none⟩], [], [], [], []⟩
        (.valid "b@x") "12345" "12345" =
      (⟨[⟨1, "alice", "a@x", "h1", "student", none, none, none, none⟩], [], [], [], []⟩,
        .renderForm "Password must be at least 6 characters long!" "danger") :=
  register_no_password_rule (fun p => p) 2 _ _
    (by intro u hu; simp at hu; simp [hu]) (by intro u hu; simp at hu; simp [hu])

/-- Helper: `update_first_by_email` on a list split around the first
matching row rewrites exactly that row's password hash. -/
theorem update_first_by_email_split (hash : String → String) (email password : String)
    (pre suf : List UserRow) (u : UserRow)
    (hpre : ∀ v ∈ pre, v.email ≠ email) (hu : u.email = email) :
    update_first_by_email hash email password (pre ++ u :: suf) =
      some (pre ++ set_password hash password u :: suf) := by
  induction pre with
  | nil => simp [update_first_by_email, hu]
  | cons v rest ih =>
    simp only [List.cons_append, update_first_by_email]
    rw [if_neg (by simp [hpre v (List.mem_cons_self _ _)])]
    simp only [List.append_eq]
    rw [ih (fun w hw => hpre w (List.mem_cons_of_mem _ hw))]
    rfl

/-- C7: the reset-password route rejects an expired token and a
badly signed token with a redirect to the forgot-password page and no
state change; with a valid token, a mismatched confirmation or a
password shorter than 6 characters re-renders the form with a danger
flash and changes nothing; otherwise the first account carrying the
token's email gets its password hash replaced by the hash of the new
password, every other row unchanged, and the response redirects to
login. -/
theorem reset_password_spec (hash : String → String) (s : DBState)
    (password confirm email : String) :
    reset_password hash s .expired password confirm =
      (s, .redirectForgot "The password reset link has expired. Please request a new one."
        "danger") ∧
    reset_password hash s .badSignature password confirm =
      (s, .redirectForgot "Invalid password reset link." "danger") ∧
    (password ≠ confirm →
      reset_password hash s (.valid email) password confirm =
        (s, .renderForm "Passwords do not match!" "danger")) ∧
    (password = confirm → password.length < 6 →
      reset_password hash s (.valid email) password confirm =
        (s, .renderForm "Password must be at least 6 characters long!" "danger")) ∧
    (password = confirm → 6 ≤ password.length →
      ∀ pre u suf, s.users = pre ++ u :: suf → (∀ v ∈ pre, v.email ≠ email) →
        u.email = email →
        (reset_password hash s (.valid email) password confirm).1.users =
          pre ++ set_password hash password u :: suf ∧
        (set_password hash password u).password_hash = hash password ∧
        (reset_password hash s (.valid email) password confirm).2 =
          .redirectLogin "Your password has been reset successfully! You can now login."
            "success") := by
  refine ⟨rfl, rfl, fun hne => ?_, fun heq hlen => ?_, fun heq hlen pre u suf husers hpre hu => ?_⟩
  · simp only [reset_password]
    rw [if_pos (by simp [hne])]
  · simp only [reset_password]
    rw [if_neg (by simp [heq]), if_pos hlen]
  · have hred : reset_password hash s (.valid email) password confirm =
        ({ s with users := pre ++ set_password hash password u :: suf },
          .redirectLogin "Your password has been reset successfully! You can now login."
            "success") := by
      simp only [reset_password]
      rw [if_neg (by simp [heq]), if_neg (not_lt.mpr hlen), husers,
        update_first_by_email_split hash email password pre suf u hpre hu]
    rw [hred]
    exact ⟨rfl, rfl, rfl⟩

/-- Witness for C7: a concrete successful reset on a one-user state,
together with the short-password rejection at the same state. -/
theorem reset_password_spec_witness :
    (reset_password (fun p => p ++ "#")
        ⟨[⟨1, "alice", "a@x", "old", "student", none, none, none, none⟩], [], [], [], []⟩
        (.valid "a@x") "secret" "secret").1.users =
      [] ++ set_password (fun p => p ++ "#") "secret"
        ⟨1, "alice", "a@x", "old", "student", none, none, none, none⟩ :: [] ∧
    (set_password (fun p => p ++ "#") "secret"
        ⟨1, "alice", "a@x", "old", "student", none, none, none, none⟩).password_hash =
      (fun p => p ++ "#") "secret" ∧
    (reset_password (fun p => p ++ "#")
        ⟨[⟨1, "alice", "a@x", "old", "student", none, none, none, none⟩], [], [], [], []⟩
        (.valid "a@x") "secret" "secret").2 =
      .redirectLogin "Your password has been reset successfully! You can now login."
        "success" :=
  (reset_password_spec (fun p => p ++ "#")
      ⟨[⟨1, "alice", "a@x", "old", "student", none, none, none, none⟩], [], [], [], []⟩
      "secret" "secret" "a@x").2.2.2.2 rfl (by decide)
    [] ⟨1, "alice", "a@x", "old", "student", none, none, none, none⟩ [] rfl
    (by intro v hv; simp at hv) rfl

end StudentPredictor
